import Mathlib

/-!
Verification of the figma-redirect-manager repository: a shallow embedding of
the redirect resolver (`src/api/r/[...slug].js`), the identifier derivation
(`generateComponentId`), and the record create/update handlers of the two
management-UI variants (`src/unnamed/part_000`, the localStorage variant, and
`src/src/App.js`, the Firestore variant), together with theorems settling the
spec's claims about them.
-/

namespace FigmaRedirect

/-! ## Character-level helpers shared by the UI variants

JavaScript's regex class `\s` (used by `generateComponentId` and by
`String.prototype.trim`) matches the characters listed below (tab, line feed,
vertical tab, form feed, carriage return, space, NBSP, Ogham space mark, the
U+2000–U+200A spaces, line/paragraph separators, narrow NBSP, medium
mathematical space, ideographic space, and BOM). -/

/-- Whether a character is JavaScript whitespace (the `\s` class). -/
def isJsWs (c : Char) : Bool :=
  let n := c.toNat
  n == 9 || n == 10 || n == 11 || n == 12 || n == 13 || n == 32 || n == 160 ||
  n == 0x1680 || n == 0x2000 || n == 0x2001 || n == 0x2002 || n == 0x2003 ||
  n == 0x2004 || n == 0x2005 || n == 0x2006 || n == 0x2007 || n == 0x2008 ||
  n == 0x2009 || n == 0x200a || n == 0x2028 || n == 0x2029 || n == 0x202f ||
  n == 0x205f || n == 0x3000 || n == 0xfeff

/-- ASCII lower-casing of one character, as `String.prototype.toLowerCase`
acts on the ASCII range (`A`–`Z` shift down by 32, all other characters of
interest are left unchanged). -/
def jsToLower (c : Char) : Char :=
  if 65 ≤ c.toNat ∧ c.toNat ≤ 90 then Char.ofNat (c.toNat + 32) else c

/-- Whether a character survives the final `replace(/[^a-z0-9-]/g, '')` of
`generateComponentId`: lowercase ASCII letter, digit, or hyphen. -/
def isAllowed (c : Char) : Bool :=
  (97 ≤ c.toNat && c.toNat ≤ 122) || (48 ≤ c.toNat && c.toNat ≤ 57) || c.toNat == 45

/-- One pass of `replace(/\s+/g, '-')`: every maximal run of whitespace
characters becomes a single hyphen. The boolean argument records whether the
previous character belonged to a whitespace run. -/
def collapseWsAux : Bool → List Char → List Char
  | _, [] => []
  | prevWs, c :: rest =>
    if isJsWs c then
      if prevWs then collapseWsAux true rest
      else '-' :: collapseWsAux true rest
    else c :: collapseWsAux false rest

/-- Character-list core of `generateComponentId` from `src/src/App.js` line 177
(identical in `src/unnamed/part_000` line 187):
`name.toLowerCase().replace(/\s+/g, '-').replace(/[^a-z0-9-]/g, '')`. -/
def generateComponentIdChars (l : List Char) : List Char :=
  (collapseWsAux false (l.map jsToLower)).filter isAllowed

/-- Embedding of `generateComponentId`. -/
def generateComponentId (name : String) : String :=
  ⟨generateComponentIdChars name.data⟩

/-- Embedding of `String.prototype.trim`: drop leading and trailing
whitespace. The handlers only ever test whether the trimmed string is empty. -/
def jsTrim (s : String) : String :=
  ⟨((s.data.dropWhile isJsWs).reverse.dropWhile isJsWs).reverse⟩

/-! ## The redirect resolver (`src/api/r/[...slug].js`)

The handler first runs Firebase-admin setup inside its `try` block (a thrown
setup error — e.g. the `FIREBASE_SERVICE_ACCOUNT_KEY` environment variable
being absent — reaches the `catch` and yields a 500), then validates the
`slug` segments, then reads one Firestore document. We model the setup outcome
as a boolean, the store as a function from document id to a read outcome, and
a thrown Firestore read error as the `failure` outcome. -/

/-- Fields of a stored `components/{id}` document as the resolver reads them;
an absent or empty URL field (both falsy in the `!redirectUrl` test) is
modelled as the empty string. -/
structure DocData where
  mainUrl : String
  latestUrl : String
deriving Repr, DecidableEq

/-- Outcome of `docRef.get()`: a document with data, a missing document
(`docSnap.exists` false), or a thrown transient/storage error. -/
inductive GetResult where
  | found (data : DocData)
  | missing
  | failure
deriving Repr, DecidableEq

/-- HTTP responses the resolver can produce: `res.redirect(status, location)`
or `res.status(status).send(body)`. -/
inductive HttpResponse where
  | redirect (status : Nat) (location : String)
  | error (status : Nat) (body : String)
deriving Repr, DecidableEq

/-- The `fallbackUrl` constant of the handler. -/
def fallbackUrl : String := "/"

/-- The body of the generic 500 response. -/
def serverErrorBody : String :=
  "Internal Server Error. Please check the function logs for details."

/-- Embedding of `handler` from `src/api/r/[...slug].js`, instrumented: the
second component records whether `docRef.get()` was reached. `initOk` is
whether Firebase-admin setup succeeded; `slug` is `req.query.slug`
(`none` models `undefined`). -/
def handlerT (initOk : Bool) (store : String → GetResult)
    (slug : Option (List String)) : HttpResponse × Bool :=
  if !initOk then (.error 500 serverErrorBody, false)
  else
    match slug with
    | none => (.redirect 307 fallbackUrl, false)
    | some [componentId, branch] =>
      if branch ≠ "main" ∧ branch ≠ "latest" then (.redirect 307 fallbackUrl, false)
      else
        match store componentId with
        | .failure => (.error 500 serverErrorBody, true)
        | .missing => (.redirect 307 fallbackUrl, true)
        | .found d =>
          let redirectUrl := if branch = "main" then d.mainUrl else d.latestUrl
          if redirectUrl = "" then (.redirect 307 fallbackUrl, true)
          else (.redirect 307 redirectUrl, true)
    | some _ => (.redirect 307 fallbackUrl, false)

/-- The resolver's HTTP response (first component of `handlerT`). -/
def handler (initOk : Bool) (store : String → GetResult)
    (slug : Option (List String)) : HttpResponse :=
  (handlerT initOk store slug).1

/-! ## Record create/update: the localStorage variant (`src/unnamed/part_000`) -/

/-- A component record as kept in the `components` state array. -/
structure ComponentRecord where
  id : String
  name : String
  mainUrl : String
  latestUrl : String
deriving Repr, DecidableEq

/-- Outcome of `handleSubmit` in the localStorage variant: the "All fields are
required." message, the duplicate-id message, or success. -/
inductive SubmitResult where
  | fieldsRequired
  | duplicateId
  | success
deriving Repr, DecidableEq

/-- Embedding of `handleSubmit` from `src/unnamed/part_000` lines 189–215:
reject when any trimmed field is empty, derive the id, reject when
`components.some(c => c.id === componentId)`, else append the new record. -/
def handleSubmit (components : List ComponentRecord)
    (newComponentName mainUrl latestUrl : String) :
    List ComponentRecord × SubmitResult :=
  if jsTrim newComponentName = "" ∨ jsTrim mainUrl = "" ∨ jsTrim latestUrl = "" then
    (components, .fieldsRequired)
  else
    let componentId := generateComponentId newComponentName
    if components.any (fun c => c.id == componentId) then
      (components, .duplicateId)
    else
      (components ++ [⟨componentId, newComponentName, mainUrl, latestUrl⟩], .success)

/-- Outcome of `handleUpdateComponent` in the localStorage variant: the
"URLs cannot be empty." alert, or success. -/
inductive UpdateResult where
  | emptyUrls
  | success
deriving Repr, DecidableEq

/-- Embedding of `handleUpdateComponent` from `src/unnamed/part_000`
lines 233–246: reject when either trimmed URL is empty, else map over the
array replacing the matching record's two URL fields. -/
def handleUpdateComponent (components : List ComponentRecord)
    (componentId editedMainUrl editedLatestUrl : String) :
    List ComponentRecord × UpdateResult :=
  if jsTrim editedMainUrl = "" ∨ jsTrim editedLatestUrl = "" then
    (components, .emptyUrls)
  else
    (components.map (fun c =>
      if c.id == componentId then
        { c with mainUrl := editedMainUrl, latestUrl := editedLatestUrl }
      else c), .success)

/-! ## Record create/update: the Firestore variant (`src/src/App.js`)

The per-user collection `artifacts/{appId}/users/{uid}/components` is modelled
as a function from document id to an optional document. `setDoc` writes the
document unconditionally (create-or-overwrite); `updateDoc` fails when the
document is absent. -/

/-- Fields of a `components/{id}` document as the Firestore variant writes
them (`{ name, mainUrl, latestUrl }`; the id is the document key). -/
structure StoredDoc where
  name : String
  mainUrl : String
  latestUrl : String
deriving Repr, DecidableEq

/-- Firestore `setDoc`: create or overwrite the document at `docId`. -/
def setDoc (col : String → Option StoredDoc) (docId : String) (d : StoredDoc) :
    String → Option StoredDoc :=
  fun i => if i = docId then some d else col i

/-- Outcome of `handleSubmit` in the Firestore variant. -/
inductive FsSubmitResult where
  | fieldsRequired
  | notLoggedIn
  | success
deriving Repr, DecidableEq

/-- Embedding of `handleSubmit` from `src/src/App.js` lines 179–203: reject
when any trimmed field is empty, reject when not logged in, then derive the id
and `setDoc` — with no duplicate check, so an existing document under the same
id is overwritten. -/
def handleSubmitFirestore (loggedIn : Bool) (col : String → Option StoredDoc)
    (newComponentName mainUrl latestUrl : String) :
    (String → Option StoredDoc) × FsSubmitResult :=
  if jsTrim newComponentName = "" ∨ jsTrim mainUrl = "" ∨ jsTrim latestUrl = "" then
    (col, .fieldsRequired)
  else if !loggedIn then (col, .notLoggedIn)
  else
    let componentId := generateComponentId newComponentName
    (setDoc col componentId ⟨newComponentName, mainUrl, latestUrl⟩, .success)

/-- Outcome of `handleUpdateComponent` in the Firestore variant (the
`updateFailed` case models `updateDoc` throwing, e.g. on an absent
document, caught and surfaced as "Failed to update component."). -/
inductive FsUpdateResult where
  | notLoggedIn
  | emptyUrls
  | updateFailed
  | success
deriving Repr, DecidableEq

/-- Embedding of `handleUpdateComponent` from `src/src/App.js` lines 228–246:
return when not logged in, reject when either trimmed URL is empty, else
`updateDoc` the two URL fields of the existing document. -/
def handleUpdateComponentFirestore (loggedIn : Bool)
    (col : String → Option StoredDoc)
    (componentId editedMainUrl editedLatestUrl : String) :
    (String → Option StoredDoc) × FsUpdateResult :=
  if !loggedIn then (col, .notLoggedIn)
  else if jsTrim editedMainUrl = "" ∨ jsTrim editedLatestUrl = "" then
    (col, .emptyUrls)
  else
    match col componentId with
    | none => (col, .updateFailed)
    | some d =>
      (fun i => if i = componentId then
          some { d with mainUrl := editedMainUrl, latestUrl := editedLatestUrl }
        else col i, .success)

/-! ## Lemmas about identifier derivation -/

/-- A character kept by the final filter is not an ASCII uppercase letter. -/
theorem allowed_not_upper {c : Char} (h : isAllowed c = true) :
    ¬(65 ≤ c.toNat ∧ c.toNat ≤ 90) := by
  unfold isAllowed at h
  simp only [Bool.or_eq_true, Bool.and_eq_true, decide_eq_true_eq, beq_iff_eq] at h
  omega

/-- Lower-casing fixes every character kept by the final filter. -/
theorem jsToLower_fixed {c : Char} (h : isAllowed c = true) : jsToLower c = c := by
  unfold jsToLower
  exact if_neg (allowed_not_upper h)

/-- No character kept by the final filter is JavaScript whitespace. -/
theorem isJsWs_allowed_false {c : Char} (h : isAllowed c = true) : isJsWs c = false := by
  unfold isAllowed at h
  simp only [Bool.or_eq_true, Bool.and_eq_true, decide_eq_true_eq, beq_iff_eq] at h
  rw [Bool.eq_false_iff]
  intro hw
  unfold isJsWs at hw
  simp only [Bool.or_eq_true, beq_iff_eq] at hw
  omega

/-- Whitespace collapsing is the identity on whitespace-free lists. -/
theorem collapseWsAux_id {l : List Char} (h : ∀ c ∈ l, isJsWs c = false) :
    ∀ b, collapseWsAux b l = l := by
  induction l with
  | nil => intro b; rfl
  | cons c rest ih =>
    intro b
    have hc : isJsWs c = false := h c (List.mem_cons_self c rest)
    have hr : ∀ x ∈ rest, isJsWs x = false := fun x hx => h x (List.mem_cons_of_mem c hx)
    unfold collapseWsAux
    simp [hc, ih hr]

/-- Lower-casing is the identity on lists of kept characters. -/
theorem map_jsToLower_id {l : List Char} (h : ∀ c ∈ l, isAllowed c = true) :
    l.map jsToLower = l := by
  induction l with
  | nil => rfl
  | cons c rest ih =>
    simp only [List.map_cons]
    rw [jsToLower_fixed (h c (List.mem_cons_self c rest)),
      ih (fun x hx => h x (List.mem_cons_of_mem c hx))]

/-- Filtering by `isAllowed` is the identity on lists of kept characters. -/
theorem filter_allowed_id {l : List Char} (h : ∀ c ∈ l, isAllowed c = true) :
    l.filter isAllowed = l := by
  induction l with
  | nil => rfl
  | cons c rest ih =>
    simp only [List.filter_cons, h c (List.mem_cons_self c rest), if_true]
    rw [ih (fun x hx => h x (List.mem_cons_of_mem c hx))]

/-- Every character of a derived identifier is kept by the final filter. -/
theorem generateComponentIdChars_allowed {l : List Char} {c : Char}
    (h : c ∈ generateComponentIdChars l) : isAllowed c = true := by
  unfold generateComponentIdChars at h
  exact (List.mem_filter.mp h).2

/-- Identifier derivation is idempotent at the character-list level. -/
theorem generateComponentIdChars_idem (l : List Char) :
    generateComponentIdChars (generateComponentIdChars l) = generateComponentIdChars l := by
  set out := generateComponentIdChars l with hout
  have hall : ∀ c ∈ out, isAllowed c = true := by
    intro c hc
    rw [hout] at hc
    exact generateComponentIdChars_allowed hc
  unfold generateComponentIdChars
  rw [map_jsToLower_id hall,
    collapseWsAux_id (fun c hc => isJsWs_allowed_false (hall c hc)) false,
    filter_allowed_id hall]

/-- C6: identifier derivation is a deterministic (it is a function) and
idempotent function of the name — deriving twice yields the same id as
deriving once for every name — and deriving from "Range Slider Filter"
yields "range-slider-filter". -/
theorem generateComponentId_idempotent_and_example :
    (∀ name : String,
      generateComponentId (generateComponentId name) = generateComponentId name) ∧
    generateComponentId "Range Slider Filter" = "range-slider-filter" := by
  refine ⟨fun name => ?_, by decide⟩
  exact congrArg (fun l => (⟨l⟩ : String)) (generateComponentIdChars_idem name.data)

/-! ## Theorems about the redirect resolver -/

/-- Concrete store used by the resolver witnesses: one component "card" with
both branch URLs set. -/
def exampleStore : String → GetResult :=
  fun i =>
    if i = "card" then .found ⟨"https://example.com/m", "https://example.com/l"⟩
    else .missing

/-- C1: for every stored record with non-empty mainUrl and latestUrl, a
resolver request whose two path segments are the record's id and the branch
"main" yields a 307 redirect to the record's mainUrl, and the branch "latest"
yields a 307 redirect to its latestUrl. -/
theorem resolver_serves_stored_branch_urls (store : String → GetResult)
    (cid : String) (d : DocData) (hs : store cid = .found d)
    (hm : d.mainUrl ≠ "") (hl : d.latestUrl ≠ "") :
    handler true store (some [cid, "main"]) = .redirect 307 d.mainUrl ∧
    handler true store (some [cid, "latest"]) = .redirect 307 d.latestUrl := by
  constructor <;> simp [handler, handlerT, hs, hm, hl]

/-- Witness for C1 at the concrete store `exampleStore` and component "card". -/
theorem resolver_serves_stored_branch_urls_witness :
    exampleStore "card" = .found ⟨"https://example.com/m", "https://example.com/l"⟩ ∧
    ("https://example.com/m" : String) ≠ "" ∧
    ("https://example.com/l" : String) ≠ "" ∧
    (handler true exampleStore (some ["card", "main"]) =
        .redirect 307 "https://example.com/m" ∧
      handler true exampleStore (some ["card", "latest"]) =
        .redirect 307 "https://example.com/l") :=
  ⟨by decide, by decide, by decide,
    resolver_serves_stored_branch_urls exampleStore "card"
      ⟨"https://example.com/m", "https://example.com/l"⟩
      (by decide) (by decide) (by decide)⟩

/-- C2: for every componentId whose document is missing from the store and
either branch "main" or "latest", the resolver responds with a 307 redirect to
the fallback target "/" and never with an error status. -/
theorem resolver_missing_component_falls_back (store : String → GetResult)
    (cid branch : String) (hmiss : store cid = .missing)
    (hb : branch = "main" ∨ branch = "latest") :
    handler true store (some [cid, branch]) = .redirect 307 fallbackUrl ∧
    ∀ st body, handler true store (some [cid, branch]) ≠ .error st body := by
  have h1 : handler true store (some [cid, branch]) = .redirect 307 fallbackUrl := by
    rcases hb with rfl | rfl <;> simp [handler, handlerT, hmiss]
  refine ⟨h1, fun st body hcontra => ?_⟩
  rw [h1] at hcontra
  exact HttpResponse.noConfusion hcontra

/-- Witness for C2 at the concrete store `exampleStore` and the absent
component "missing". -/
theorem resolver_missing_component_falls_back_witness :
    exampleStore "missing" = .missing ∧
    (("main" : String) = "main" ∨ ("main" : String) = "latest") ∧
    (handler true exampleStore (some ["missing", "main"]) = .redirect 307 fallbackUrl ∧
      ∀ st body, handler true exampleStore (some ["missing", "main"]) ≠ .error st body) :=
  ⟨by decide, Or.inl rfl,
    resolver_missing_component_falls_back exampleStore "missing" "main"
      (by decide) (Or.inl rfl)⟩

/-- C3: for every request whose branch segment is neither "main" nor "latest",
the resolver yields a 307 redirect to the fallback target without reaching the
store read, for every store — in particular regardless of whether the
componentId exists. -/
theorem resolver_invalid_branch_skips_lookup (store : String → GetResult)
    (cid branch : String) (h1 : branch ≠ "main") (h2 : branch ≠ "latest") :
    handlerT true store (some [cid, branch]) = (.redirect 307 fallbackUrl, false) := by
  unfold handlerT
  simp [h1, h2]

/-- Witness for C3 at branch "other" on the existing component "card". -/
theorem resolver_invalid_branch_skips_lookup_witness :
    ("other" : String) ≠ "main" ∧ ("other" : String) ≠ "latest" ∧
    handlerT true exampleStore (some ["card", "other"]) =
      (.redirect 307 fallbackUrl, false) :=
  ⟨by decide, by decide,
    resolver_invalid_branch_skips_lookup exampleStore "card" "other"
      (by decide) (by decide)⟩

/-- C4: for every request whose slug is absent or does not consist of exactly
two segments, the resolver yields a 307 redirect to the fallback target
without reaching the store read. -/
theorem resolver_bad_segment_count_skips_lookup (store : String → GetResult)
    (slug : Option (List String))
    (h : ∀ segs, slug = some segs → segs.length ≠ 2) :
    handlerT true store slug = (.redirect 307 fallbackUrl, false) := by
  rcases slug with _ | segs
  · rfl
  · match segs with
    | [] => rfl
    | [a] => rfl
    | [a, b] => exact absurd rfl (h [a, b] rfl)
    | a :: b :: c :: rest => rfl

/-- Witness for C4 at the one-segment slug `["card"]`. -/
theorem resolver_bad_segment_count_skips_lookup_witness :
    (∀ segs, some ["card"] = some segs → segs.length ≠ 2) ∧
    handlerT true exampleStore (some ["card"]) = (.redirect 307 fallbackUrl, false) :=
  ⟨fun segs hh => by cases hh; decide,
    resolver_bad_segment_count_skips_lookup exampleStore (some ["card"])
      (fun segs hh => by cases hh; decide)⟩

/-- C5: whenever the store read throws a transient/storage error on a
well-formed request, the resolver responds with HTTP 500 and the generic
message (after having reached the read), and on this path it never emits a
redirect response. -/
theorem resolver_storage_failure_responds_500 (store : String → GetResult)
    (cid branch : String) (hb : branch = "main" ∨ branch = "latest")
    (hf : store cid = .failure) :
    handlerT true store (some [cid, branch]) = (.error 500 serverErrorBody, true) ∧
    ∀ st loc, handler true store (some [cid, branch]) ≠ .redirect st loc := by
  have h1 : handlerT true store (some [cid, branch]) = (.error 500 serverErrorBody, true) := by
    rcases hb with rfl | rfl <;> simp [handlerT, hf]
  have h2 : handler true store (some [cid, branch]) = .error 500 serverErrorBody := by
    unfold handler
    rw [h1]
  refine ⟨h1, fun st loc hcontra => ?_⟩
  rw [h2] at hcontra
  exact HttpResponse.noConfusion hcontra

/-- Concrete store whose every read throws, used by the C5 witness. -/
def failingStore : String → GetResult := fun _ => .failure

/-- Witness for C5 at the always-failing store and component "card". -/
theorem resolver_storage_failure_responds_500_witness :
    (("main" : String) = "main" ∨ ("main" : String) = "latest") ∧
    failingStore "card" = .failure ∧
    (handlerT true failingStore (some ["card", "main"]) =
        (.error 500 serverErrorBody, true) ∧
      ∀ st loc, handler true failingStore (some ["card", "main"]) ≠ .redirect st loc) :=
  ⟨Or.inl rfl, by decide,
    resolver_storage_failure_responds_500 failingStore "card" "main"
      (Or.inl rfl) (by decide)⟩

/-- C10: when Firebase-admin setup fails, every request — for every store and
every slug, including slugs with a wrong segment count or an invalid branch
that would otherwise reach the fallback outcome without a lookup — yields the
HTTP 500 server-error outcome, and no store read happens. -/
theorem resolver_init_failure_yields_500 (store : String → GetResult)
    (slug : Option (List String)) :
    handlerT false store slug = (.error 500 serverErrorBody, false) := rfl

/-! ## Theorems about record creation and update -/

/-- Trimming the empty string yields the empty string. -/
theorem jsTrim_empty : jsTrim "" = "" := rfl

/-- Concrete Firestore collection holding the component "card" (the derived
id of the name "Card"), used for the C7 counterexample and witness. -/
def exampleCol : String → Option StoredDoc :=
  fun i =>
    if i = "card" then some ⟨"Card", "https://old.example/m", "https://old.example/l"⟩
    else none

/-- C7 counterexample: in the Firestore variant (`src/src/App.js`), creating a
record whose derived id "card" collides with the existing document does not
fail with a duplicate-id error — it succeeds and overwrites the existing
document's URL fields, mutating the stored record. -/
theorem firestore_duplicate_create_overwrites :
    (handleSubmitFirestore true exampleCol "Card"
        "https://new.example/m" "https://new.example/l").2 = .success ∧
    (handleSubmitFirestore true exampleCol "Card"
        "https://new.example/m" "https://new.example/l").1 "card" =
      some ⟨"Card", "https://new.example/m", "https://new.example/l"⟩ ∧
    exampleCol "card" = some ⟨"Card", "https://old.example/m", "https://old.example/l"⟩ := by
  decide

/-- C7 as amended: in the localStorage variant (`src/unnamed/part_000`), a
create whose derived id already occurs among the stored records fails with the
duplicate-id error and returns the record list unchanged; in the Firestore
variant (`src/src/App.js`), the same create succeeds and `setDoc` writes the
new fields at the colliding id, overwriting any existing document there. -/
theorem create_duplicate_id_behavior (components : List ComponentRecord)
    (col : String → Option StoredDoc) (name m l : String)
    (hn : jsTrim name ≠ "") (hm : jsTrim m ≠ "") (hl : jsTrim l ≠ "")
    (hdup : components.any (fun c => c.id == generateComponentId name) = true) :
    handleSubmit components name m l = (components, .duplicateId) ∧
    handleSubmitFirestore true col name m l =
      (setDoc col (generateComponentId name) ⟨name, m, l⟩, .success) := by
  constructor
  · simp [handleSubmit, hn, hm, hl, hdup]
  · simp [handleSubmitFirestore, hn, hm, hl]

/-- Witness for C7's amended theorem at the name "Card" colliding with the
stored id "card" in both variants. -/
theorem create_duplicate_id_behavior_witness :
    jsTrim "Card" ≠ "" ∧
    jsTrim "https://new.example/m" ≠ "" ∧
    jsTrim "https://new.example/l" ≠ "" ∧
    ([(⟨"card", "Card", "https://old.example/m", "https://old.example/l"⟩ :
        ComponentRecord)].any (fun c => c.id == generateComponentId "Card") = true) ∧
    (handleSubmit [⟨"card", "Card", "https://old.example/m", "https://old.example/l"⟩]
        "Card" "https://new.example/m" "https://new.example/l" =
      ([⟨"card", "Card", "https://old.example/m", "https://old.example/l"⟩],
        .duplicateId) ∧
      handleSubmitFirestore true exampleCol "Card"
          "https://new.example/m" "https://new.example/l" =
        (setDoc exampleCol (generateComponentId "Card")
          ⟨"Card", "https://new.example/m", "https://new.example/l"⟩, .success)) :=
  ⟨by decide, by decide, by decide, by decide,
    create_duplicate_id_behavior
      [⟨"card", "Card", "https://old.example/m", "https://old.example/l"⟩]
      exampleCol "Card" "https://new.example/m" "https://new.example/l"
      (by decide) (by decide) (by decide) (by decide)⟩

/-- C8: an update request in which mainUrl or latestUrl is the empty string is
rejected with the empty-URLs outcome in both variants, and the stored state —
the whole record list, hence every existing record — is returned unchanged. -/
theorem update_with_empty_url_rejected (components : List ComponentRecord)
    (col : String → Option StoredDoc) (cid m l : String)
    (h : m = "" ∨ l = "") :
    handleUpdateComponent components cid m l = (components, .emptyUrls) ∧
    handleUpdateComponentFirestore true col cid m l = (col, .emptyUrls) := by
  have hj : jsTrim m = "" ∨ jsTrim l = "" := by
    rcases h with rfl | rfl
    · exact Or.inl jsTrim_empty
    · exact Or.inr jsTrim_empty
  refine ⟨?_, ?_⟩
  · unfold handleUpdateComponent
    rw [if_pos hj]
  · unfold handleUpdateComponentFirestore
    rw [if_neg (by simp), if_pos hj]

/-- Witness for C8: updating "card" with an empty mainUrl leaves both concrete
stores unchanged and reports the empty-URLs rejection. -/
theorem update_with_empty_url_rejected_witness :
    (("" : String) = "" ∨ ("https://example.com/l" : String) = "") ∧
    (handleUpdateComponent
        [⟨"card", "Card", "https://old.example/m", "https://old.example/l"⟩]
        "card" "" "https://example.com/l" =
      ([⟨"card", "Card", "https://old.example/m", "https://old.example/l"⟩],
        .emptyUrls) ∧
      handleUpdateComponentFirestore true exampleCol "card" "" "https://example.com/l" =
        (exampleCol, .emptyUrls)) :=
  ⟨Or.inl rfl,
    update_with_empty_url_rejected
      [⟨"card", "Card", "https://old.example/m", "https://old.example/l"⟩]
      exampleCol "card" "" "https://example.com/l" (Or.inl rfl)⟩

/-- C9: the non-empty name "!!!" (consisting only of characters outside
`[a-z0-9-]` and whitespace) derives the empty identifier, and the localStorage
variant's create accepts it without error, storing a record whose id is the
empty string. -/
theorem empty_derived_id_record_accepted :
    generateComponentId "!!!" = "" ∧
    handleSubmit [] "!!!" "https://example.com/m" "https://example.com/l" =
      ([⟨"", "!!!", "https://example.com/m", "https://example.com/l"⟩], .success) := by
  decide

end FigmaRedirect
